import Mathlib

/-!
Verification of the ProjPool application factory (`app.py`).

The file shallowly embeds the observable behaviour of `create_app` and the
JWT callback functions it registers: the additional-claims loader, the
token-blocklist check, and the four failure handlers.  Flask/SQLAlchemy
objects are modelled by explicit data: the blocklist table is a list of
records, a JSON object is an association list, the application instance is
a record of its configuration entries, scheduled jobs, registered JWT
callbacks and registered blueprints.
-/

namespace ProjPool

/-- Python runtime values that can reach the JWT callbacks as an identity
or a payload entry: strings, integers, booleans and `None`. -/
inductive PyVal where
  | str (s : String)
  | int (n : Int)
  | bool (b : Bool)
  | pynone
  deriving DecidableEq, Repr

/-- Python `==` on the primitive values above: values of distinct types
compare unequal, except that `bool` is an `int` subtype, so `True == 1`
and `False == 0` hold. -/
def pyEq : PyVal → PyVal → Bool
  | .str a, .str b => a == b
  | .int a, .int b => a == b
  | .bool a, .bool b => a == b
  | .int a, .bool b => a == (if b then (1 : Int) else 0)
  | .bool a, .int b => (if a then (1 : Int) else 0) == b
  | .pynone, .pynone => true
  | _, _ => false

/-- Whether a Python value is a string. -/
def PyVal.isStr : PyVal → Bool
  | .str _ => true
  | _ => false

/-- Lookup in a Python dict modelled as an association list; `Option.none`
models a `KeyError` on subscript access. -/
def dictGet (d : List (String × String)) (k : String) : Option String :=
  (d.find? (fun p => p.fst == k)).map Prod.snd

/-- The `additional_claims_loader` callback `add_claims_to_jwt`: returns
`{"is_admin": True}` when `identity == str(1)` and `{"is_admin": False}`
otherwise. -/
def add_claims_to_jwt (identity : PyVal) : List (String × PyVal) :=
  if pyEq identity (.str (toString (1 : Nat))) then
    [("is_admin", .bool true)]
  else
    [("is_admin", .bool false)]

/-- A row of the `TokenBlocklist` table; the callback code consults only
its `jti` column. -/
structure TokenBlocklist where
  jti : String
  deriving DecidableEq, Repr

/-- `TokenBlocklist.query.filter_by(jti=jti)`: the rows whose `jti` column
equals the given identifier. -/
def filter_by_jti (store : List TokenBlocklist) (jti : String) :
    List TokenBlocklist :=
  store.filter (fun r => r.jti == jti)

/-- The `token_in_blocklist_loader` callback `check_if_token_in_blocklist`:
reads `jwt_payload["jti"]` (a `KeyError`, modelled as `Option.none`, when
the key is absent), then returns `bool(...first())` of the filtered
query. -/
def check_if_token_in_blocklist (store : List TokenBlocklist)
    (jwt_payload : List (String × String)) : Option Bool :=
  match dictGet jwt_payload "jti" with
  | Option.none => Option.none
  | Option.some jti => Option.some ((filter_by_jti store jti).head?).isSome

/-- A JSON response body modelled as an association list of string
fields. -/
abbrev JsonBody := List (String × String)

/-- The `revoked_token_loader` callback: a fixed body (note the misspelled
key `decsription`) with HTTP status 401. -/
def revoked_token_callback (jwt_header jwt_payload : List (String × String)) :
    JsonBody × Nat :=
  ([("decsription", "Token has been revoked"), ("error", "token_revoked")], 401)

/-- The `expired_token_loader` callback: a fixed body with HTTP status
401. -/
def expired_token_callback (jwt_header jwt_payload : List (String × String)) :
    JsonBody × Nat :=
  ([("message", "Token has expired"), ("error", "token_expired")], 401)

/-- The `invalid_token_loader` callback: a fixed body with HTTP status
401. -/
def invalid_token_callback (error : String) : JsonBody × Nat :=
  ([("message", "Signature verification failed"), ("error", "invalid_token")], 401)

/-- The `unauthorized_loader` callback `missing_token_callback`: a fixed
body with HTTP status 401. -/
def missing_token_callback (error : String) : JsonBody × Nat :=
  ([("description", "Request does not contain access token"),
    ("error", "authorization_required")], 401)

/-- A configuration value stored in `app.config`: a boolean or string
literal, an `os.getenv` result (possibly `None`), or a `timedelta`
measured in seconds. -/
inductive ConfigVal where
  | b (v : Bool)
  | s (v : String)
  | env (v : Option String)
  | td (seconds : Nat)
  deriving DecidableEq, Repr

/-- The function object handed to `scheduler.add_job`; the body of
`cleanup_revoked_tokens` lives in the excluded `clean_up` module, so jobs
are identified by the function they reference. -/
inductive JobFunc where
  | cleanup_revoked_tokens
  deriving DecidableEq, Repr

/-- One `scheduler.add_job` registration: id, function, trigger kind and
the cron fields passed. -/
structure SchedulerJob where
  id : String
  func : JobFunc
  trigger : String
  hour : Nat
  minute : Nat
  deriving DecidableEq, Repr

/-- The observable result of `create_app`: the configuration entries in
assignment order, the scheduled jobs, the JWT callbacks in registration
order, and the blueprints in registration order. -/
structure AppModel where
  config : List (String × ConfigVal)
  jobs : List SchedulerJob
  jwtCallbacks : List String
  blueprints : List String
  deriving DecidableEq, Repr

/-- Final value of a configuration key: `app.config` is a dict, so the
last assignment to a key wins. -/
def configGet (cfg : List (String × ConfigVal)) (k : String) :
    Option ConfigVal :=
  (cfg.reverse.find? (fun p => p.fst == k)).map Prod.snd

/-- The application factory `create_app(db_url=None)`, embedded over an
explicit `os.getenv` environment.  It transcribes, in source order, every
`app.config` assignment, the single `scheduler.add_job` call, the six
`@jwt.*` callback registrations and the five `api.register_blueprint`
calls.  The `db_url` parameter is carried because the source declares it. -/
def create_app (getenv : String → Option String) (db_url : Option String) :
    AppModel :=
  ⟨[("PROPAGATE_EXCEPTIONS", .b true),
    ("API_TITLE", .s "ProjPool -- Project Database"),
    ("API_VERSION", .s "v1"),
    ("OPENAPI_VERSION", .s "3.0.3"),
    ("OPENAPI_URL_PREFIX", .s "/"),
    ("OPENAPI_SWAGGER_UI_PATH", .s "/swagger-ui"),
    ("OPENAPI_SWAGGER_UI_URL", .s "https://cdn.jsdelivr.net/npm/swagger-ui-dist/"),
    ("SQLALCHEMY_DATABASE_URI", .env (getenv "DATABASE_URL")),
    ("SQLALCHEMY_TRACK_MODIFICATIONS", .b false),
    ("GCS_BUCKET_NAME", .env (getenv "GCS_BUCKET_NAME")),
    ("GOOGLE_CLOUD_PROJECT_ID", .env (getenv "GOOGLE_CLOUD_PROJECT_ID")),
    ("GOOGLE_CLOUD_GEMINI_MODEL_ID", .env (getenv "GOOGLE_CLOUD_GEMINI_MODEL_ID")),
    ("JWT_SECRET_KEY", .env (getenv "JWT_SECRET_KEY")),
    ("JWT_ACCESS_TOKEN_EXPIRES", .td (3 * 3600)),
    ("SCHEDULER_API_ENABLED", .b true)],
   [⟨"cleanup_revoked_tokens", JobFunc.cleanup_revoked_tokens, "cron", 3, 0⟩],
   ["add_claims_to_jwt", "check_if_token_in_blocklist",
    "revoked_token_callback", "expired_token_callback",
    "invalid_token_callback", "missing_token_callback"],
   ["ImageBlueprint", "LabelBlueprint", "ProjectBlueprint",
    "UserBlueprint", "GeminiBlueprint"]⟩

/-- The head of the filtered query is present exactly when some row of the
store carries the requested identifier. -/
theorem filter_by_jti_head_isSome (store : List TokenBlocklist) (j : String) :
    ((filter_by_jti store j).head?).isSome = true ↔ ∃ r ∈ store, r.jti = j := by
  induction store with
  | nil => simp [filter_by_jti]
  | cons a l ih =>
    by_cases h : a.jti = j
    · simp [filter_by_jti, List.filter_cons, h]
    · simp only [filter_by_jti, List.filter_cons, beq_iff_eq, h, if_false,
        List.mem_cons] at ih ⊢
      rw [ih]
      constructor
      · intro hx
        rcases hx with ⟨r, hr, hj⟩
        exact ⟨r, Or.inr hr, hj⟩
      · intro hx
        rcases hx with ⟨r, hr | hr, hj⟩
        · exact absurd (hr ▸ hj) h
        · exact ⟨r, hr, hj⟩

/-- C1: when the payload carries a `jti`, `check_if_token_in_blocklist`
returns `true` exactly when a blocklist record with that `jti` is present,
and `false` exactly when no such record is present. -/
theorem C1_revocation_check (store : List TokenBlocklist)
    (jwt_payload : List (String × String)) (j : String)
    (h : dictGet jwt_payload "jti" = Option.some j) :
    (check_if_token_in_blocklist store jwt_payload = Option.some true ↔
      ∃ r ∈ store, r.jti = j) ∧
    (check_if_token_in_blocklist store jwt_payload = Option.some false ↔
      ¬ ∃ r ∈ store, r.jti = j) := by
  unfold check_if_token_in_blocklist
  rw [h]
  constructor
  · rw [← filter_by_jti_head_isSome store j]
    simp
  · rw [← filter_by_jti_head_isSome store j]
    simp

/-- Witness for C1 at a concrete store and payload. -/
theorem C1_revocation_check_witness :
    (check_if_token_in_blocklist [⟨"abc"⟩] [("jti", "abc")] = Option.some true ↔
      ∃ r ∈ [(⟨"abc"⟩ : TokenBlocklist)], r.jti = "abc") ∧
    (check_if_token_in_blocklist [⟨"abc"⟩] [("jti", "abc")] = Option.some false ↔
      ¬ ∃ r ∈ [(⟨"abc"⟩ : TokenBlocklist)], r.jti = "abc") :=
  C1_revocation_check [⟨"abc"⟩] [("jti", "abc")] "abc" (by decide)

/-- C2: on every input, each of the four failure handlers returns HTTP
status 401 (and nothing else) together with its fixed machine-readable
error code. -/
theorem C2_handlers_status_and_codes (hd p : List (String × String))
    (e : String) :
    (revoked_token_callback hd p).snd = 401 ∧
    dictGet (revoked_token_callback hd p).fst "error" =
      Option.some "token_revoked" ∧
    (expired_token_callback hd p).snd = 401 ∧
    dictGet (expired_token_callback hd p).fst "error" =
      Option.some "token_expired" ∧
    (invalid_token_callback e).snd = 401 ∧
    dictGet (invalid_token_callback e).fst "error" =
      Option.some "invalid_token" ∧
    (missing_token_callback e).snd = 401 ∧
    dictGet (missing_token_callback e).fst "error" =
      Option.some "authorization_required" := by
  exact ⟨rfl, rfl, rfl, rfl, rfl, rfl, rfl, rfl⟩

/-- C3: claim augmentation returns `is_admin: true` exactly for the string
identity `"1"`, and `is_admin: false` for every other identity. -/
theorem C3_add_claims_is_admin (identity : PyVal) :
    add_claims_to_jwt identity =
      [("is_admin", PyVal.bool (decide (identity = PyVal.str "1")))] := by
  rcases identity with s | n | b | _
  · by_cases hs : s = "1" <;>
      simp [add_claims_to_jwt, pyEq, hs, show toString (1 : Nat) = "1" from rfl]
  · simp [add_claims_to_jwt, pyEq]
  · simp [add_claims_to_jwt, pyEq]
  · simp [add_claims_to_jwt, pyEq]

/-- C4: each 401 body has exactly two keys, a text key plus `error`
holding the code; the text key is `message` or `description` except in the
revoked-token handler, whose body uses the misspelled key `decsription`
with value `Token has been revoked` and code `token_revoked`. -/
theorem C4_error_body_shape (hd p : List (String × String)) (e : String) :
    ((revoked_token_callback hd p).fst.map Prod.fst =
        ["decsription", "error"] ∧
      dictGet (revoked_token_callback hd p).fst "decsription" =
        Option.some "Token has been revoked" ∧
      dictGet (revoked_token_callback hd p).fst "error" =
        Option.some "token_revoked") ∧
    ((expired_token_callback hd p).fst.map Prod.fst = ["message", "error"] ∧
      "message" ∈ (["description", "message"] : List String)) ∧
    ((invalid_token_callback e).fst.map Prod.fst = ["message", "error"] ∧
      "message" ∈ (["description", "message"] : List String)) ∧
    ((missing_token_callback e).fst.map Prod.fst = ["description", "error"] ∧
      "description" ∈ (["description", "message"] : List String)) := by
  exact ⟨⟨rfl, rfl, rfl⟩, ⟨rfl, by decide⟩, ⟨rfl, by decide⟩, ⟨rfl, by decide⟩⟩

/-- C5: assembly registers exactly one scheduled job, with id
`cleanup_revoked_tokens`, function `cleanup_revoked_tokens`, a cron
trigger at hour 3 and minute 0. -/
theorem C5_single_scheduled_job (getenv : String → Option String)
    (db_url : Option String) :
    (create_app getenv db_url).jobs =
      [⟨"cleanup_revoked_tokens", JobFunc.cleanup_revoked_tokens,
        "cron", 3, 0⟩] := rfl

/-- C6: assembly sets the access-token lifetime to exactly 3 hours
(10800 seconds) and the signing key to `os.getenv("JWT_SECRET_KEY")`. -/
theorem C6_jwt_config (getenv : String → Option String)
    (db_url : Option String) :
    configGet (create_app getenv db_url).config "JWT_ACCESS_TOKEN_EXPIRES" =
      Option.some (ConfigVal.td (3 * 3600)) ∧
    configGet (create_app getenv db_url).config "JWT_SECRET_KEY" =
      Option.some (ConfigVal.env (getenv "JWT_SECRET_KEY")) := ⟨rfl, rfl⟩

/-- C7 counterexample: a concrete assembly registers six JWT callbacks,
not five as the claim states. -/
theorem C7_six_callbacks_counterexample :
    ((create_app (fun _ => Option.none) Option.none).jwtCallbacks).length = 6 ∧
    (6 : Nat) ≠ 5 := by decide

/-- C7 (amended): two calls to `create_app` under identical environment
variable values register the same five blueprints (image, label, project,
user, AI-assist) in the same order and the same six JWT callbacks (claim
augmentation, revocation check, and one handler each for revoked, expired,
invalid and missing tokens). -/
theorem C7_deterministic_assembly (env1 env2 : String → Option String)
    (u1 u2 : Option String) (henv : ∀ k, env1 k = env2 k) :
    (create_app env1 u1).blueprints = (create_app env2 u2).blueprints ∧
    (create_app env1 u1).blueprints.length = 5 ∧
    (create_app env1 u1).jwtCallbacks = (create_app env2 u2).jwtCallbacks ∧
    (create_app env1 u1).jwtCallbacks.length = 6 :=
  ⟨rfl, rfl, rfl, rfl⟩

/-- Witness for C7 at two concrete identical environments. -/
theorem C7_deterministic_assembly_witness :
    (create_app (fun _ => Option.none) Option.none).blueprints =
      (create_app (fun _ => Option.none) (Option.some "u")).blueprints ∧
    (create_app (fun _ => Option.none) Option.none).blueprints.length = 5 ∧
    (create_app (fun _ => Option.none) Option.none).jwtCallbacks =
      (create_app (fun _ => Option.none) (Option.some "u")).jwtCallbacks ∧
    (create_app (fun _ => Option.none) Option.none).jwtCallbacks.length = 6 :=
  C7_deterministic_assembly (fun _ => Option.none) (fun _ => Option.none)
    Option.none (Option.some "u") (fun _ => rfl)

/-- C8: the `db_url` parameter is ignored: any two argument values give
identical applications, and the database URI always comes from the
environment variable `DATABASE_URL`. -/
theorem C8_db_url_ignored (getenv : String → Option String)
    (u1 u2 : Option String) :
    create_app getenv u1 = create_app getenv u2 ∧
    configGet (create_app getenv u1).config "SQLALCHEMY_DATABASE_URI" =
      Option.some (ConfigVal.env (getenv "DATABASE_URL")) := ⟨rfl, rfl⟩

/-- C9: the revocation check returns a boolean exactly when the payload
carries the key `jti`; a payload lacking `jti` makes the subscript fail
(`KeyError`, modelled as `Option.none`) instead of returning a boolean. -/
theorem C9_jti_precondition (store : List TokenBlocklist)
    (jwt_payload : List (String × String)) :
    check_if_token_in_blocklist store jwt_payload = Option.none ↔
      dictGet jwt_payload "jti" = Option.none := by
  unfold check_if_token_in_blocklist
  cases dictGet jwt_payload "jti" <;> simp

/-- C10: the admin comparison is against the string `str(1)`, so every
non-string identity — the integer 1 included — yields `is_admin: false`. -/
theorem C10_nonstring_identity (identity : PyVal)
    (h : identity.isStr = false) :
    add_claims_to_jwt identity = [("is_admin", PyVal.bool false)] := by
  rcases identity with s | n | b | _
  · exact absurd h (by simp [PyVal.isStr])
  · simp [add_claims_to_jwt, pyEq]
  · simp [add_claims_to_jwt, pyEq]
  · simp [add_claims_to_jwt, pyEq]

/-- Witness for C10 at the integer identity 1. -/
theorem C10_nonstring_identity_witness :
    add_claims_to_jwt (PyVal.int 1) = [("is_admin", PyVal.bool false)] :=
  C10_nonstring_identity (PyVal.int 1) rfl

end ProjPool
